import Mathlib

/-!
Verification development for the KalePensionFund Soroban contract
(src/kalepensionfund/contracts/src/lib.rs).

The contract's storage (per-pair price cache, per-pair price history,
the single global oracle-health record, per-user portfolios, configured
addresses) is modelled as an explicit state record; the ledger timestamp
is passed as an explicit `now` argument; the external world (Reflector
oracle, mock oracle, Soroswap router) is modelled as an environment of
response functions.  Rust `i128` values are modelled as `Int` (overflow
is not modelled); `u64`/`u32` values as `Nat`, with `Nat` subtraction
matching `saturating_sub`.  Rust integer division truncates toward zero
and is modelled by `Int.tdiv`; a division whose divisor is zero panics in
Rust and is modelled by an explicit error value.
-/

namespace KaleFund

/-- Trading pair symbols that occur in the contract; `other` stands for
any symbol different from the five recognised ones. -/
inductive TPair where
  | KALE_USD
  | BTC_USD
  | USDC_USD
  | KALE_USDC
  | BTC_USDC
  | other (id : Nat)
deriving DecidableEq

/-- Provenance tag of a resolved price (`PriceSource` in the source). -/
inductive PriceSource where
  | oracle
  | fallback
  | cache
deriving DecidableEq

/-- `CachedPrice` record of the source. -/
structure CachedPrice where
  price : Int
  timestamp : Nat
  source : PriceSource
deriving DecidableEq

/-- `PricePoint` record of the source. -/
structure PricePoint where
  timestamp : Nat
  price : Int
deriving DecidableEq

/-- `OracleHealth` record of the source. -/
structure OracleHealth where
  consecutive_failures : Nat
  last_success_timestamp : Nat
  is_circuit_open : Bool
deriving DecidableEq

/-- `PriceData` returned by the Reflector / mock oracle clients. -/
structure PriceData where
  price : Int
  timestamp : Nat
deriving DecidableEq

/-- A user portfolio (struct `Portfolio` in the source; the owner address
is the key under which the record is stored and is kept outside the
record here). -/
structure PortfolioData where
  kale_balance : Int
  usdc_balance : Int
  btc_balance : Int
  risk_level : Nat
deriving DecidableEq

/-- Which instance-storage addresses are configured (the model only needs
presence, not the address values). -/
structure Config where
  kale_set : Bool
  usdc_set : Bool
  btc_set : Bool
  reflector_set : Bool
  router_set : Bool
  mock_set : Bool
deriving DecidableEq

/-- Token addresses occurring in swap paths. -/
inductive Token where
  | kale
  | usdc
  | btc
deriving DecidableEq

/-- Reflector asset identifiers produced by `symbol_to_reflector_asset`:
`Asset::Stellar(kale_token)`, `Asset::Other("BTC")`, `Asset::Other("USDC")`. -/
inductive RAsset where
  | stellarKale
  | btcSym
  | usdcSym
deriving DecidableEq

/-- One `swap_exact_tokens_for_tokens` request submitted to the router
(the recipient is always the contract itself and is omitted). -/
structure SwapCall where
  amount_in : Int
  amount_out_min : Int
  path : List Token
  deadline : Nat
deriving DecidableEq

/-- External world: responses of the Reflector oracle, the mock oracle and
the Soroswap router. -/
structure OracleEnv where
  reflector_lastprice : RAsset → Option PriceData
  mock_lastprice : RAsset → Option PriceData
  swap_result : SwapCall → Except Unit (List Int)

/-- The contract's storage. -/
structure ContractState where
  config : Config
  cache : TPair → Option CachedPrice
  history : TPair → List PricePoint
  health : Option OracleHealth
  portfolios : Nat → Option PortfolioData

/-- `symbol_to_reflector_asset`: KALE_USD needs the configured KALE token
address; BTC_USD and USDC_USD map to `Other` symbols; every other pair is
unsupported. -/
def symbol_to_reflector_asset (cfg : Config) (pair : TPair) : Option RAsset :=
  match pair with
  | TPair.KALE_USD => if cfg.kale_set then some RAsset.stellarKale else none
  | TPair.BTC_USD => some RAsset.btcSym
  | TPair.USDC_USD => some RAsset.usdcSym
  | _ => none

/-- `try_reflector_oracle`: needs the oracle address, converts the pair,
queries `lastprice` and accepts the answer only if price and timestamp are
positive and the price is younger than 3600 seconds. -/
def try_reflector_oracle (env : OracleEnv) (cfg : Config) (now : Nat)
    (pair : TPair) : Option Int :=
  if cfg.reflector_set then
    match symbol_to_reflector_asset cfg pair with
    | none => none
    | some asset =>
      match env.reflector_lastprice asset with
      | none => none
      | some price_data =>
        if 0 < price_data.price ∧ 0 < price_data.timestamp then
          if now - price_data.timestamp < 3600 then some price_data.price
          else none
        else none
  else none

/-- `try_mock_oracle`: needs the mock oracle address, converts the pair,
queries `lastprice` and accepts any positive price. -/
def try_mock_oracle (env : OracleEnv) (cfg : Config) (now : Nat)
    (pair : TPair) : Option Int :=
  if cfg.mock_set then
    match symbol_to_reflector_asset cfg pair with
    | none => none
    | some asset =>
      match env.mock_lastprice asset with
      | none => none
      | some price_data =>
        if 0 < price_data.price then some price_data.price else none
  else none

/-- `try_fetch_oracle_price`: main oracle first, then the mock oracle. -/
def try_fetch_oracle_price (env : OracleEnv) (cfg : Config) (now : Nat)
    (pair : TPair) : Option (Int × PriceSource) :=
  match try_reflector_oracle env cfg now pair with
  | some oracle_result => some (oracle_result, PriceSource.oracle)
  | none =>
    match try_mock_oracle env cfg now pair with
    | some mock_result => some (mock_result, PriceSource.oracle)
    | none => none

/-- `get_cached_price`: return the stored entry only when its age
(`now.saturating_sub(timestamp)`) is at most `ttl_seconds`. -/
def get_cached_price (s : ContractState) (pair : TPair) (now : Nat)
    (ttl_seconds : Nat) : Option CachedPrice :=
  match s.cache pair with
  | some cached => if now - cached.timestamp ≤ ttl_seconds then some cached else none
  | none => none

/-- `get_oracle_health`: stored record, defaulting to a closed breaker
with zero failures and `last_success_timestamp = now`. -/
def get_oracle_health (s : ContractState) (now : Nat) : OracleHealth :=
  s.health.getD
    { consecutive_failures := 0, last_success_timestamp := now, is_circuit_open := false }

/-- `get_fallback_price`: hardcoded price table; unsupported pairs get the
neutral 1:1 constant. -/
def get_fallback_price (pair : TPair) : Int :=
  match pair with
  | TPair.KALE_USD => 120000000
  | TPair.KALE_USDC => 120000000
  | TPair.BTC_USD => 111235000000000
  | TPair.BTC_USDC => 111235000000000
  | TPair.USDC_USD => 1000000000
  | TPair.other _ => 1000000000

/-- The front-eviction loop of `store_price_history`: pop points from the
front while their timestamp is strictly below the cutoff, stopping at the
first point inside the window. -/
def evict_old (cutoff : Nat) : List PricePoint → List PricePoint
  | [] => []
  | point :: rest =>
    if point.timestamp < cutoff then evict_old cutoff rest else point :: rest

/-- `store_price_history`: push the new point at the back, then evict
from the front every point older than `now - 604800`. -/
def store_price_history (s : ContractState) (pair : TPair) (price : Int)
    (now : Nat) : ContractState :=
  { s with history := fun q =>
      if q = pair then
        evict_old (now - 604800) (s.history q ++ [{ timestamp := now, price := price }])
      else s.history q }

/-- `get_price`: fresh cache (≤ 300 s) short-circuit; cooldown reset of an
open breaker after 1800 s; oracle attempt while closed with
success/failure accounting (the health record is persisted only when an
attempt was made); fallback to a stale cache entry (≤ 3600 s) and then to
the fallback table; cache write-back and history append. -/
def get_price (env : OracleEnv) (s : ContractState) (now : Nat)
    (pair : TPair) : Int × ContractState :=
  match get_cached_price s pair now 300 with
  | some cached => (cached.price, s)
  | none =>
    let health0 := get_oracle_health s now
    let health1 :=
      if health0.is_circuit_open ∧ 1800 < now - health0.last_success_timestamp then
        { health0 with is_circuit_open := false, consecutive_failures := 0 }
      else health0
    let attempt : Option (Int × PriceSource) × Option OracleHealth :=
      if health1.is_circuit_open then (none, s.health)
      else
        match try_fetch_oracle_price env s.config now pair with
        | some result =>
          (some result,
           some { consecutive_failures := 0
                  last_success_timestamp := now
                  is_circuit_open := false })
        | none =>
          let failures := health1.consecutive_failures + 1
          (none,
           some { health1 with
                  consecutive_failures := failures
                  is_circuit_open :=
                    if 3 ≤ failures then true else health1.is_circuit_open })
    let resolved : Int × PriceSource :=
      match attempt.1 with
      | some result => result
      | none =>
        match get_cached_price s pair now 3600 with
        | some stale_cached => (stale_cached.price, PriceSource.cache)
        | none => (get_fallback_price pair, PriceSource.fallback)
    let s1 : ContractState :=
      { s with
        health := attempt.2
        cache := fun q =>
          if q = pair then
            some { price := resolved.1, timestamp := now, source := resolved.2 }
          else s.cache q }
    (resolved.1, store_price_history s1 pair resolved.1 now)

/-- `get_7day_average_price`: mean of the stored points (integer division
truncating toward zero); with no history, resolve and return the current
price instead. -/
def get_7day_average_price (env : OracleEnv) (s : ContractState) (now : Nat)
    (pair : TPair) : Int × ContractState :=
  let history := s.history pair
  if history.isEmpty then get_price env s now pair
  else
    let total_price := history.foldl (fun acc point => acc + point.price) 0
    (total_price.tdiv history.length, s)

/-- Target allocation triples (usdc, btc, kale) by risk level; an
out-of-range level has no triple (the source logs and returns early). -/
def riskTargets (level : Nat) : Option (Int × Int × Int) :=
  match level with
  | 1 => some (70, 20, 10)
  | 2 => some (50, 30, 20)
  | 3 => some (30, 40, 30)
  | _ => none

/-- Errors with which `rebalance` can abort (Rust panics): the
`expect("Portfolio not found")` and a division whose divisor is zero. -/
inductive RebalErr where
  | portfolioNotFound
  | divisionByZero
deriving DecidableEq

/-- Overwrite one user's portfolio record. -/
def put_pf (s : ContractState) (user : Nat) (pf : PortfolioData) : ContractState :=
  { s with portfolios := fun u => if u = user then some pf else s.portfolios u }

/-- One router swap attempt and the leg-by-leg portfolio mutation that
each of the four identical `match router.try_swap_exact_tokens_for_tokens`
blocks of `rebalance` performs: on success debit `amount_in` and credit
the router-reported `amounts.get(1)` (no credit when absent); on failure
debit `amount_in` and credit the precomputed estimate. -/
def exec_leg (env : OracleEnv) (req : SwapCall) (expected_out : Int)
    (pf : PortfolioData)
    (debit : PortfolioData → Int → PortfolioData)
    (credit : PortfolioData → Int → PortfolioData) : PortfolioData :=
  match env.swap_result req with
  | Except.ok amounts =>
    let pf1 := debit pf req.amount_in
    match amounts[1]? with
    | some received => credit pf1 received
    | none => pf1
  | Except.error _ => credit (debit pf req.amount_in) expected_out

/-- `rebalance`: resolve the current KALE price and the 7-day average,
compute the drift percentage, and trade toward the risk-level target when
the drift exceeds ±10%; the mutated portfolio is persisted at the end,
except on the early `return`s (invalid risk level, missing token
addresses), which leave the stored portfolio untouched. -/
def rebalance (env : OracleEnv) (s : ContractState) (now : Nat) (user : Nat) :
    Except RebalErr ContractState :=
  match s.portfolios user with
  | none => Except.error RebalErr.portfolioNotFound
  | some pf0 =>
    let r1 := get_price env s now TPair.KALE_USD
    let current_price := r1.1
    let r2 := get_7day_average_price env r1.2 now TPair.KALE_USD
    let avg_price := r2.1
    let s2 := r2.2
    if avg_price = 0 then Except.error RebalErr.divisionByZero else
    let price_change_percent := ((current_price - avg_price) * 100).tdiv avg_price
    match riskTargets pf0.risk_level with
    | none => Except.ok s2
    | some targets =>
      let kale_target := targets.2.2
      if 10 < price_change_percent then
        let rA := get_price env s2 now TPair.BTC_USD
        let s3 := rA.2
        let total_value := pf0.kale_balance * current_price
          + pf0.usdc_balance * 1000000000 + pf0.btc_balance * rA.1
        let target_kale_value := (total_value * kale_target).tdiv 100
        let current_kale_value := pf0.kale_balance * current_price
        if target_kale_value < current_kale_value then
          if current_price = 0 then Except.error RebalErr.divisionByZero else
          let excess_kale := (current_kale_value - target_kale_value).tdiv current_price
          let kale_to_usdc := excess_kale.tdiv 2
          let kale_to_btc := excess_kale - kale_to_usdc
          if s.config.router_set ∧ s.config.kale_set ∧ s.config.usdc_set ∧
              s.config.btc_set then
            let deadline := now + 300
            let pf1 :=
              if 0 < kale_to_usdc then
                let expected_usdc := (kale_to_usdc * current_price).tdiv 1000000000
                let min_usdc := (expected_usdc * 95).tdiv 100
                exec_leg env
                  { amount_in := kale_to_usdc, amount_out_min := min_usdc,
                    path := [Token.kale, Token.usdc], deadline := deadline }
                  expected_usdc pf0
                  (fun p a => { p with kale_balance := p.kale_balance - a })
                  (fun p a => { p with usdc_balance := p.usdc_balance + a })
              else pf0
            if 0 < kale_to_btc then
              let rC := get_price env s3 now TPair.BTC_USD
              let s4 := rC.2
              if rC.1 = 0 then Except.error RebalErr.divisionByZero else
              let expected_btc := (kale_to_btc * current_price).tdiv rC.1
              let min_btc := (expected_btc * 95).tdiv 100
              let pf2 :=
                exec_leg env
                  { amount_in := kale_to_btc, amount_out_min := min_btc,
                    path := [Token.kale, Token.btc], deadline := deadline }
                  expected_btc pf1
                  (fun p a => { p with kale_balance := p.kale_balance - a })
                  (fun p a => { p with btc_balance := p.btc_balance + a })
              Except.ok (put_pf s4 user pf2)
            else Except.ok (put_pf s3 user pf1)
          else Except.ok s3
        else Except.ok (put_pf s3 user pf0)
      else if price_change_percent < -10 then
        let rA := get_price env s2 now TPair.BTC_USD
        let s3 := rA.2
        let total_value := pf0.kale_balance * current_price
          + pf0.usdc_balance * 1000000000 + pf0.btc_balance * rA.1
        let target_kale_value := (total_value * kale_target).tdiv 100
        let current_kale_value := pf0.kale_balance * current_price
        if current_kale_value < target_kale_value then
          let needed_kale_value := target_kale_value - current_kale_value
          let usdc_to_spend :=
            min pf0.usdc_balance ((needed_kale_value.tdiv 2).tdiv 1000000000)
          let rB := get_price env s3 now TPair.BTC_USD
          let s4 := rB.2
          if rB.1 = 0 then Except.error RebalErr.divisionByZero else
          let btc_to_spend :=
            min pf0.btc_balance ((needed_kale_value.tdiv 2).tdiv rB.1)
          if s.config.router_set ∧ s.config.kale_set ∧ s.config.usdc_set ∧
              s.config.btc_set then
            let deadline := now + 300
            let after_leg1 : PortfolioData → Except RebalErr ContractState :=
              fun pf1 =>
              if 0 < btc_to_spend then
                let rC := get_price env s4 now TPair.BTC_USD
                let s5 := rC.2
                if current_price = 0 then Except.error RebalErr.divisionByZero else
                let expected_kale := (btc_to_spend * rC.1).tdiv current_price
                let min_kale := (expected_kale * 95).tdiv 100
                let pf2 :=
                  exec_leg env
                    { amount_in := btc_to_spend, amount_out_min := min_kale,
                      path := [Token.btc, Token.kale], deadline := deadline }
                    expected_kale pf1
                    (fun p a => { p with btc_balance := p.btc_balance - a })
                    (fun p a => { p with kale_balance := p.kale_balance + a })
                Except.ok (put_pf s5 user pf2)
              else Except.ok (put_pf s4 user pf1)
            if 0 < usdc_to_spend then
              if current_price = 0 then Except.error RebalErr.divisionByZero else
              let expected_kale := (usdc_to_spend * 1000000000).tdiv current_price
              let min_kale := (expected_kale * 95).tdiv 100
              after_leg1 (exec_leg env
                { amount_in := usdc_to_spend, amount_out_min := min_kale,
                  path := [Token.usdc, Token.kale], deadline := deadline }
                expected_kale pf0
                (fun p a => { p with usdc_balance := p.usdc_balance - a })
                (fun p a => { p with kale_balance := p.kale_balance + a }))
            else after_leg1 pf0
          else Except.ok s4
        else Except.ok (put_pf s3 user pf0)
      else Except.ok (put_pf s2 user pf0)

/-- The current KALE price that `rebalance` resolves first. -/
def rebal_current_price (env : OracleEnv) (s : ContractState) (now : Nat) : Int :=
  (get_price env s now TPair.KALE_USD).1

/-- The 7-day average that `rebalance` resolves second (on the state left
by the first resolution). -/
def rebal_avg_price (env : OracleEnv) (s : ContractState) (now : Nat) : Int :=
  (get_7day_average_price env (get_price env s now TPair.KALE_USD).2 now
    TPair.KALE_USD).1

/-- The drift percentage `((current - average) * 100) / average` computed
by `rebalance` (Rust `i128` division truncates toward zero). -/
def rebal_drift (env : OracleEnv) (s : ContractState) (now : Nat) : Int :=
  ((rebal_current_price env s now - rebal_avg_price env s now) * 100).tdiv
    (rebal_avg_price env s now)

/-- The portfolio stored for a user after a `rebalance` outcome. -/
def pf_after (r : Except RebalErr ContractState) (user : Nat) :
    Option PortfolioData :=
  match r with
  | Except.ok s => s.portfolios user
  | Except.error _ => none

/-- `get_price` never touches the portfolio store. -/
theorem get_price_portfolios_eq (env : OracleEnv) (s : ContractState)
    (now : Nat) (pair : TPair) :
    ((get_price env s now pair).2).portfolios = s.portfolios := by
  unfold get_price
  split
  · rfl
  · rfl

/-- `get_7day_average_price` never touches the portfolio store. -/
theorem get_7day_portfolios_eq (env : OracleEnv) (s : ContractState)
    (now : Nat) (pair : TPair) :
    ((get_7day_average_price env s now pair).2).portfolios = s.portfolios := by
  unfold get_7day_average_price
  dsimp only
  split
  · exact get_price_portfolios_eq env s now pair
  · rfl

/-- An unsupported pair converts to no Reflector asset, so both oracle
sources fail for it, whatever the environment answers. -/
theorem try_fetch_other_none (env : OracleEnv) (cfg : Config) (now : Nat)
    (id : Nat) :
    try_fetch_oracle_price env cfg now (TPair.other id) = none := by
  simp [try_fetch_oracle_price, try_reflector_oracle, try_mock_oracle,
    symbol_to_reflector_asset]

/-- With no stored cache entry, every cache lookup misses. -/
theorem get_cached_none (s : ContractState) (pair : TPair) (now ttl : Nat)
    (hc : s.cache pair = none) : get_cached_price s pair now ttl = none := by
  simp [get_cached_price, hc]

/-- C5: `get_price` is total (it is a plain function of the model) and, for
a pair outside the five recognised symbols with no cache entry — hence no
usable oracle route and no fallback-table row — it returns the fixed
neutral 1:1 constant 1_000_000_000, whatever the environment and the rest
of the state. -/
theorem get_price_total_neutral_fallback (env : OracleEnv) (s : ContractState)
    (now : Nat) (id : Nat) (hc : s.cache (TPair.other id) = none) :
    (get_price env s now (TPair.other id)).1 = 1000000000 := by
  unfold get_price
  rw [get_cached_none s _ now 300 hc]
  dsimp only
  rw [try_fetch_other_none, get_cached_none s _ now 3600 hc]
  split
  · rename_i result heq
    split at heq
    · simp at heq
    · split at heq <;> simp at heq
  · rfl

/-- The eviction loop only drops a prefix: its result is a suffix of its
input. -/
theorem evict_old_isSuffix (cutoff : Nat) (l : List PricePoint) :
    List.IsSuffix (evict_old cutoff l) l := by
  induction l with
  | nil => exact List.suffix_rfl
  | cons point rest ih =>
    unfold evict_old
    split
    · exact ih.trans (List.suffix_cons point rest)
    · exact List.suffix_rfl

/-- The eviction loop keeps the final point when that point is inside the
window. -/
theorem evict_old_getLast (cutoff : Nat) (l : List PricePoint)
    (x : PricePoint) (hx : ¬ x.timestamp < cutoff) :
    (evict_old cutoff (l ++ [x])).getLast? = some x := by
  induction l with
  | nil =>
    rw [List.nil_append]
    unfold evict_old
    rw [if_neg hx]
    rfl
  | cons point rest ih =>
    rw [List.cons_append]
    unfold evict_old
    split
    · exact ih
    · exact List.getLast?_concat (point :: rest)

/-- On a timestamp-sorted input followed by an in-window point, every
point surviving the eviction loop is inside the window. -/
theorem evict_old_all_in_window (cutoff : Nat) (l : List PricePoint)
    (x : PricePoint)
    (hl : List.Pairwise (fun a b => a.timestamp ≤ b.timestamp) l)
    (hx : cutoff ≤ x.timestamp) :
    ∀ p ∈ evict_old cutoff (l ++ [x]), cutoff ≤ p.timestamp := by
  induction l with
  | nil =>
    intro p hp
    rw [List.nil_append] at hp
    unfold evict_old at hp
    rw [if_neg (Nat.not_lt.mpr hx)] at hp
    simp at hp
    rw [hp]
    exact hx
  | cons point rest ih =>
    intro p hp
    rw [List.cons_append] at hp
    unfold evict_old at hp
    split at hp
    · exact ih (List.Pairwise.of_cons hl) p hp
    · rename_i hpoint
      rcases List.mem_cons.mp hp with h | h
      · rw [h]
        exact Nat.not_lt.mp hpoint
      · rcases List.mem_append.mp h with h2 | h2
        · have hle := (List.pairwise_cons.mp hl).1 p h2
          have := Nat.not_lt.mp hpoint
          omega
        · simp at h2
          rw [h2]
          exact hx

/-- C8: `store_price_history` appends the new point at the back (it is the
last retained point), evicts only from the front (the result is a suffix
of the old history with the new point appended), and — provided the stored
history is sorted by timestamp, which every real history is, since points
are appended at the current ledger time — the retained sequence holds no
point older than 604800 seconds before the appended point's timestamp. -/
theorem store_price_history_window (s : ContractState) (pair : TPair)
    (price : Int) (now : Nat)
    (hsorted : List.Pairwise (fun a b => a.timestamp ≤ b.timestamp)
      (s.history pair)) :
    List.IsSuffix ((store_price_history s pair price now).history pair)
        (s.history pair ++ [{ timestamp := now, price := price }]) ∧
      ((store_price_history s pair price now).history pair).getLast? =
        some { timestamp := now, price := price } ∧
      ∀ p ∈ (store_price_history s pair price now).history pair,
        now - 604800 ≤ p.timestamp := by
  have hwin : now - 604800 ≤ now := Nat.sub_le now 604800
  refine ⟨?_, ?_, ?_⟩
  · simpa [store_price_history] using
      evict_old_isSuffix (now - 604800)
        (s.history pair ++ [{ timestamp := now, price := price }])
  · simpa [store_price_history] using
      evict_old_getLast (now - 604800) (s.history pair)
        { timestamp := now, price := price } (by simpa using Nat.not_lt.mpr hwin)
  · intro p hp
    refine evict_old_all_in_window (now - 604800) (s.history pair)
      { timestamp := now, price := price } hsorted hwin p ?_
    simpa [store_price_history] using hp

/-- The accumulation loop of `get_7day_average_price` computes the sum of
the stored prices. -/
theorem foldl_add_price (l : List PricePoint) (a : Int) :
    l.foldl (fun acc point => acc + point.price) a
      = a + (l.map PricePoint.price).sum := by
  induction l generalizing a with
  | nil => simp
  | cons p t ih => simp [ih, add_assoc]

/-- C9: with a non-empty history, `get_7day_average_price` returns the sum
of the retained prices divided by their count, truncating toward zero, and
leaves the state untouched; with an empty history it resolves (and
returns) a fresh current price via `get_price`. -/
theorem get_7day_average_spec (env : OracleEnv) (s : ContractState)
    (now : Nat) (pair : TPair) :
    (s.history pair ≠ [] →
      get_7day_average_price env s now pair =
        (((s.history pair).map PricePoint.price).sum.tdiv
          ((s.history pair).length : Int), s)) ∧
    (s.history pair = [] →
      get_7day_average_price env s now pair = get_price env s now pair) := by
  constructor
  · intro hne
    unfold get_7day_average_price
    dsimp only
    rw [if_neg (by simp [List.isEmpty_iff, hne]), foldl_add_price]
    simp
  · intro he
    unfold get_7day_average_price
    dsimp only
    rw [if_pos (by simp [he])]

/-- Storing a price point never touches the health record. -/
theorem store_price_history_health (s : ContractState) (pair : TPair)
    (price : Int) (now : Nat) :
    (store_price_history s pair price now).health = s.health := rfl

/-- The oracle-health invariant of the spec: an open circuit was opened at
a moment with at least 3 consecutive failures. -/
def health_inv : Option OracleHealth → Prop :=
  fun oh => ∀ h, oh = some h → h.is_circuit_open = true → 3 ≤ h.consecutive_failures

/-- Whether the stored (or defaulted) breaker is open. -/
def health_open (oh : Option OracleHealth) : Bool :=
  (oh.map OracleHealth.is_circuit_open).getD false


/-- A fresh cache hit returns the cached price and leaves the state
untouched. -/
theorem get_price_cache_hit (env : OracleEnv) (s : ContractState)
    (now : Nat) (pair : TPair) (cached : CachedPrice)
    (h : get_cached_price s pair now 300 = some cached) :
    get_price env s now pair = (cached.price, s) := by
  unfold get_price
  rw [h]

/-- On a fresh-cache miss, the stored health record after `get_price` is:
unchanged when the (possibly cooldown-reset) breaker is still open;
the reset success record on oracle success; the incremented failure record
otherwise. -/
theorem get_price_health_eq (env : OracleEnv) (s : ContractState)
    (now : Nat) (pair : TPair)
    (hmiss : get_cached_price s pair now 300 = none) :
    ((get_price env s now pair).2).health =
      (let health0 := get_oracle_health s now
       let health1 :=
         if health0.is_circuit_open ∧ 1800 < now - health0.last_success_timestamp then
           { health0 with is_circuit_open := false, consecutive_failures := 0 }
         else health0
       if health1.is_circuit_open then s.health
       else
         match try_fetch_oracle_price env s.config now pair with
         | some _ =>
           some { consecutive_failures := 0
                  last_success_timestamp := now
                  is_circuit_open := false }
         | none =>
           let failures := health1.consecutive_failures + 1
           some { health1 with
                  consecutive_failures := failures
                  is_circuit_open :=
                    if 3 ≤ failures then true else health1.is_circuit_open }) := by
  unfold get_price
  rw [hmiss]
  dsimp only
  rw [store_price_history_health]
  dsimp only
  split <;> split <;> first
  | rfl
  | (split <;> rfl)

/-- C3: `get_price` preserves the oracle-health invariant — the circuit is
set open only at a moment where the failure counter has reached 3 — and
whenever a call clears an open circuit, either the oracle attempt of that
call succeeded or the 1800-second cooldown had elapsed. -/
theorem get_price_health_invariant (env : OracleEnv) (s : ContractState)
    (now : Nat) (pair : TPair) (hinv : health_inv s.health) :
    health_inv ((get_price env s now pair).2).health ∧
      (health_open s.health = true →
       health_open ((get_price env s now pair).2).health = false →
       (try_fetch_oracle_price env s.config now pair).isSome = true ∨
         1800 < now - (get_oracle_health s now).last_success_timestamp) := by
  cases hmiss : get_cached_price s pair now 300 with
  | some cached =>
    rw [get_price_cache_hit env s now pair cached hmiss]
    exact ⟨hinv, fun ht hf => by simp [ht] at hf⟩
  | none =>
    rw [get_price_health_eq env s now pair hmiss]
    dsimp only
    by_cases hcool : (get_oracle_health s now).is_circuit_open = true ∧
        1800 < now - (get_oracle_health s now).last_success_timestamp
    · rw [if_pos hcool]
      rw [if_neg (by simp)]
      refine ⟨?_, fun _ _ => Or.inr hcool.2⟩
      cases htf : try_fetch_oracle_price env s.config now pair with
      | some v =>
        intro h hh hopen
        simp at hh
        rw [← hh] at hopen
        simp at hopen
      | none =>
        intro h hh hopen
        simp at hh
        rw [← hh] at hopen
        simp at hopen
    · rw [if_neg hcool]
      by_cases hopen0 : (get_oracle_health s now).is_circuit_open = true
      · rw [if_pos hopen0]
        exact ⟨hinv, fun ht hf => by simp [ht] at hf⟩
      · rw [if_neg hopen0]
        cases htf : try_fetch_oracle_price env s.config now pair with
        | some v =>
          refine ⟨?_, fun _ _ => Or.inl (by simp)⟩
          intro h hh hopen
          simp at hh
          rw [← hh] at hopen
          simp at hopen
        | none =>
          constructor
          · intro h hh hopen
            simp at hh
            rw [← hh] at hopen ⊢
            dsimp only at hopen ⊢
            rw [Bool.not_eq_true] at hopen0
            simp [hopen0] at hopen
            omega
          · intro ht _
            exfalso
            cases hs : s.health with
            | none => rw [hs] at ht; simp [health_open] at ht
            | some hrec =>
              rw [hs] at ht
              simp [health_open] at ht
              exact hopen0 (by simp [get_oracle_health, hs, ht])

/-- Storing a price point never touches the cache. -/
theorem store_price_history_cache (s : ContractState) (pair : TPair)
    (price : Int) (now : Nat) :
    (store_price_history s pair price now).cache = s.cache := rfl

/-- Any pair other than KALE_USD, BTC_USD and USDC_USD — including
KALE_USDC and BTC_USDC, which only the fallback table recognises —
converts to no Reflector asset, so both oracle sources fail for it,
whatever the environment answers. -/
theorem try_fetch_unsupported_none (env : OracleEnv) (cfg : Config)
    (now : Nat) (pair : TPair) (h1 : pair ≠ TPair.KALE_USD)
    (h2 : pair ≠ TPair.BTC_USD) (h3 : pair ≠ TPair.USDC_USD) :
    try_fetch_oracle_price env cfg now pair = none := by
  have hconv : symbol_to_reflector_asset cfg pair = none := by
    cases pair <;> simp_all [symbol_to_reflector_asset]
  simp [try_fetch_oracle_price, try_reflector_oracle, try_mock_oracle, hconv]

/-- C10: for every pair outside {KALE_USD, BTC_USD, USDC_USD}, a
`get_price` call that misses the fresh cache while the single global
circuit is closed is booked as an oracle failure: the stored health record
afterwards carries `consecutive_failures` incremented by one, the
unchanged `last_success_timestamp`, and the circuit open exactly when the
incremented counter has reached 3. -/
theorem get_price_unsupported_pair_failure_count (env : OracleEnv)
    (s : ContractState) (now : Nat) (pair : TPair)
    (h1 : pair ≠ TPair.KALE_USD) (h2 : pair ≠ TPair.BTC_USD)
    (h3 : pair ≠ TPair.USDC_USD)
    (hmiss : get_cached_price s pair now 300 = none)
    (hclosed : health_open s.health = false) :
    ((get_price env s now pair).2).health =
      some { consecutive_failures := (get_oracle_health s now).consecutive_failures + 1
             last_success_timestamp := (get_oracle_health s now).last_success_timestamp
             is_circuit_open :=
               decide (3 ≤ (get_oracle_health s now).consecutive_failures + 1) } := by
  have hopen0 : (get_oracle_health s now).is_circuit_open = false := by
    cases hs : s.health with
    | none => simp [get_oracle_health, hs]
    | some hrec =>
      rw [hs] at hclosed
      simp [health_open] at hclosed
      simp [get_oracle_health, hs, hclosed]
  rw [get_price_health_eq env s now _ hmiss]
  dsimp only
  rw [if_neg (by simp [hopen0])]
  rw [if_neg (by simp [hopen0])]
  rw [try_fetch_unsupported_none env s.config now pair h1 h2 h3]
  dsimp only
  rw [hopen0]
  by_cases hth : 3 ≤ (get_oracle_health s now).consecutive_failures + 1
  · simp [hth]
  · simp [hth]

/-- The value `get_price` falls back to when no oracle price is obtained:
a cache entry at most 3600 seconds old, else the fallback-table constant. -/
def cache_or_fallback (s : ContractState) (now : Nat) (pair : TPair) : Int :=
  match get_cached_price s pair now 3600 with
  | some cached => cached.price
  | none => get_fallback_price pair

/-- A fresh (≤ 300 s) cache entry is in particular a stale (≤ 3600 s) one. -/
theorem get_cached_300_to_3600 (s : ContractState) (pair : TPair) (now : Nat)
    (c : CachedPrice) (h : get_cached_price s pair now 300 = some c) :
    get_cached_price s pair now 3600 = some c := by
  unfold get_cached_price at h ⊢
  revert h
  cases s.cache pair with
  | none =>
    intro h
    simp at h
  | some cached =>
    intro h
    dsimp only at h ⊢
    by_cases hage : now - cached.timestamp ≤ 300
    · rw [if_pos hage] at h
      rw [if_pos (by omega)]
      exact h
    · rw [if_neg hage] at h
      simp at h

/-- C4 (amended): while the stored breaker is open, (1) a call made before
the 1800-second cooldown never consults the oracle — its entire outcome is
independent of the oracle environment — and returns the ≤ 3600 s cache
entry or the fallback constant; (2) a call made after the cooldown that
also misses the fresh (≤ 300 s) cache behaves exactly as if the breaker
had first been forced closed with its failure counter reset (a fresh cache
hit, by contrast, returns before the breaker is looked at — see the
counterexample). -/
theorem get_price_circuit_open_behavior (env env2 : OracleEnv)
    (s : ContractState) (now : Nat) (pair : TPair) (h : OracleHealth)
    (hh : s.health = some h) (hopen : h.is_circuit_open = true) :
    (now - h.last_success_timestamp ≤ 1800 →
      get_price env s now pair = get_price env2 s now pair ∧
      (get_price env s now pair).1 = cache_or_fallback s now pair) ∧
    (1800 < now - h.last_success_timestamp →
     get_cached_price s pair now 300 = none →
      get_price env s now pair =
        get_price env
          { s with health := some { consecutive_failures := 0
                                    last_success_timestamp := h.last_success_timestamp
                                    is_circuit_open := false } }
          now pair) := by
  have hgoh : get_oracle_health s now = h := by simp [get_oracle_health, hh]
  constructor
  · intro hcool
    cases hmiss : get_cached_price s pair now 300 with
    | some cached =>
      rw [get_price_cache_hit env s now pair cached hmiss,
        get_price_cache_hit env2 s now pair cached hmiss]
      refine ⟨rfl, ?_⟩
      unfold cache_or_fallback
      rw [get_cached_300_to_3600 s pair now cached hmiss]
    | none =>
      have hnc : ¬(h.is_circuit_open = true ∧ 1800 < now - h.last_success_timestamp) :=
        fun hand => absurd hand.2 (by omega)
      constructor
      · unfold get_price
        rw [hmiss]
        dsimp only
        rw [hgoh, if_neg hnc, hopen]
        rfl
      · unfold get_price
        rw [hmiss]
        dsimp only
        rw [hgoh, if_neg hnc, hopen]
        rw [if_pos rfl]
        unfold cache_or_fallback
        dsimp only
        split <;> rfl
  · intro hcool hmiss
    have hmiss2 : get_cached_price
        { s with health := some { consecutive_failures := 0
                                  last_success_timestamp := h.last_success_timestamp
                                  is_circuit_open := false } }
        pair now 300 = none := hmiss
    unfold get_price
    rw [hmiss, hmiss2]
    dsimp only
    have hcond : h.is_circuit_open = true ∧ 1800 < now - h.last_success_timestamp :=
      ⟨hopen, hcool⟩
    rw [hgoh, if_pos hcond]
    have hgoh2 : get_oracle_health
        { s with health := some { consecutive_failures := 0
                                  last_success_timestamp := h.last_success_timestamp
                                  is_circuit_open := false } } now =
        { consecutive_failures := 0
          last_success_timestamp := h.last_success_timestamp
          is_circuit_open := false } := by
      simp [get_oracle_health]
    rw [hgoh2]
    rfl

/-- The provenance tag a `get_price` call stores in the cache, read back
from the written entry. -/
def resolved_src (env : OracleEnv) (s : ContractState) (now : Nat)
    (pair : TPair) : PriceSource :=
  (((get_price env s now pair).2).cache pair).elim PriceSource.fallback
    CachedPrice.source

/-- On a fresh-cache miss, `get_price` overwrites the pair's cache entry
with the resolved price, stamped with the current time. -/
theorem get_price_writes_cache (env : OracleEnv) (s : ContractState)
    (now : Nat) (pair : TPair)
    (hmiss : get_cached_price s pair now 300 = none) :
    ((get_price env s now pair).2).cache pair =
      some { price := (get_price env s now pair).1
             timestamp := now
             source := resolved_src env s now pair } := by
  unfold resolved_src get_price
  rw [hmiss]
  dsimp only
  rw [store_price_history_cache]
  dsimp only
  rw [if_pos rfl]
  rfl

/-- C7 (amended): a fresh (≤ 300 s) cache hit returns the cached price and
mutates nothing; consequently, when a call misses the fresh cache — and
therefore rewrites the cache entry at its own timestamp — any call up to
300 s later returns the identical price and is itself a pure hit.  (Two
calls within 300 s of each other may still differ when the first call was
itself a hit on an older entry — see the counterexample.) -/
theorem get_price_cache_hit_pure (env env2 : OracleEnv) (s : ContractState)
    (now t2 : Nat) (pair : TPair) :
    (∀ cached, s.cache pair = some cached → now - cached.timestamp ≤ 300 →
      get_price env s now pair = (cached.price, s)) ∧
    (get_cached_price s pair now 300 = none → t2 - now ≤ 300 →
      get_price env2 (get_price env s now pair).2 t2 pair =
        ((get_price env s now pair).1, (get_price env s now pair).2)) := by
  constructor
  · intro cached hc hage
    refine get_price_cache_hit env s now pair cached ?_
    unfold get_cached_price
    rw [hc]
    dsimp only
    rw [if_pos hage]
  · intro hmiss hage
    have hw := get_price_writes_cache env s now pair hmiss
    have hhit : get_cached_price ((get_price env s now pair).2) pair t2 300 =
        some { price := (get_price env s now pair).1
               timestamp := now
               source := resolved_src env s now pair } := by
      unfold get_cached_price
      rw [hw]
      dsimp only
      rw [if_pos hage]
    exact get_price_cache_hit env2 _ t2 pair _ hhit

/-- Environment whose oracles answer nothing and whose router rejects
every swap. -/
def envNone : OracleEnv :=
  { reflector_lastprice := fun _ => none
    mock_lastprice := fun _ => none
    swap_result := fun _ => Except.error () }

/-- All contract addresses configured except the test-only mock oracle. -/
def cfgAll : Config :=
  { kale_set := true, usdc_set := true, btc_set := true
    reflector_set := true, router_set := true, mock_set := false }

/-- A configured state with empty storage. -/
def baseState : ContractState :=
  { config := cfgAll
    cache := fun _ => none
    history := fun _ => []
    health := none
    portfolios := fun _ => none }

/-- Open breaker (3 failures, last success at 0) together with a fresh
cache entry for KALE_USD written at time 2000. -/
def cexStateC4 : ContractState :=
  { baseState with
    health := some { consecutive_failures := 3
                     last_success_timestamp := 0
                     is_circuit_open := true }
    cache := fun q =>
      if q = TPair.KALE_USD then
        some { price := 42, timestamp := 2000, source := PriceSource.cache }
      else none }

/-- C4 counterexample: at time 2000 the breaker is open and the cooldown
has elapsed (2000 - 0 > 1800), yet the call hits the fresh cache and
returns without forcing the breaker closed or resetting the failure
counter — the stored health record is untouched, refuting the unamended
claim that any such call resets the breaker before re-attempting. -/
theorem get_price_cooldown_fresh_cache_counterexample :
    cexStateC4.health = some { consecutive_failures := 3
                               last_success_timestamp := 0
                               is_circuit_open := true } ∧
    1800 < 2000 - 0 ∧
    ((get_price envNone cexStateC4 2000 TPair.KALE_USD).2).health =
      some { consecutive_failures := 3
             last_success_timestamp := 0
             is_circuit_open := true } := by
  refine ⟨rfl, by decide, ?_⟩
  decide

/-- A cache entry for KALE_USD written at time 0, in an otherwise empty
configured state. -/
def cexStateC7 : ContractState :=
  { baseState with
    cache := fun q =>
      if q = TPair.KALE_USD then
        some { price := 42, timestamp := 0, source := PriceSource.cache }
      else none }

/-- An environment whose Reflector oracle quotes 99 for the KALE asset at
timestamp 600. -/
def envC7 : OracleEnv :=
  { envNone with
    reflector_lastprice := fun a =>
      if a = RAsset.stellarKale then some { price := 99, timestamp := 600 }
      else none }

/-- C7 counterexample: two `get_price` calls 300 seconds apart (at times
300 and 600) return different prices — the first is a hit on the entry
cached at time 0 and does not refresh it, so the second call misses the
fresh cache and obtains the oracle quote — refuting the unamended claim
that two calls within 300 s of each other always yield an identical
price. -/
theorem get_price_two_calls_counterexample :
    (600 : Nat) - 300 ≤ 300 ∧
    (get_price envC7 cexStateC7 300 TPair.KALE_USD).1 = 42 ∧
    (get_price envC7 (get_price envC7 cexStateC7 300 TPair.KALE_USD).2 600
      TPair.KALE_USD).1 = 99 := by
  refine ⟨by decide, by decide, ?_⟩
  decide

/-- C1: when the drift computed by `rebalance` (current vs. 7-day average
KALE price) lies within [-10, 10], the call succeeds and the stored
portfolio — in particular its kale, usdc and btc balances — is unchanged:
no trade leg is generated. -/
theorem rebalance_noop_when_drift_small (env : OracleEnv) (s : ContractState)
    (now user : Nat) (pf : PortfolioData)
    (hm : s.portfolios user = some pf)
    (havg : rebal_avg_price env s now ≠ 0)
    (hlo : -10 ≤ rebal_drift env s now)
    (hhi : rebal_drift env s now ≤ 10) :
    ∃ s2, rebalance env s now user = Except.ok s2 ∧
      s2.portfolios user = s.portfolios user := by
  unfold rebal_avg_price at havg
  unfold rebal_drift rebal_current_price rebal_avg_price at hlo hhi
  unfold rebalance
  rw [hm]
  dsimp only
  rw [if_neg havg]
  cases hr : riskTargets pf.risk_level with
  | none =>
    refine ⟨_, rfl, ?_⟩
    rw [get_7day_portfolios_eq, get_price_portfolios_eq]
    exact hm
  | some targets =>
    dsimp only
    rw [if_neg (not_lt.mpr hhi), if_neg (not_lt.mpr hlo)]
    refine ⟨_, rfl, ?_⟩
    simp [put_pf]

/-- C6: the drift division of `rebalance` has no guard for a zero trailing
average: whenever the resolved 7-day average is zero (and a portfolio
exists), the call runs straight into the division by zero — modelled here
as the `divisionByZero` abort, matching the Rust panic. -/
theorem rebalance_zero_average_division (env : OracleEnv) (s : ContractState)
    (now user : Nat) (pf : PortfolioData)
    (hm : s.portfolios user = some pf)
    (havg : rebal_avg_price env s now = 0) :
    rebalance env s now user = Except.error RebalErr.divisionByZero := by
  unfold rebal_avg_price at havg
  unfold rebalance
  rw [hm]
  dsimp only
  rw [if_pos havg]

/-- C2: on every trade leg whose router swap fails, the portfolio is still
mutated — the input-asset balance is debited by `amount_in` and the
output-asset balance is credited with the precomputed price-implied
estimate (this is what each call site of `exec_leg` inside `rebalance`
passes as `expected_out`) — and a `rebalance` call's success or failure is
completely independent of the router's answers: an exchange failure never
aborts it. -/
theorem rebalance_swap_failure_bookkeeping :
    (∀ (env : OracleEnv) (req : SwapCall) (expected_out : Int)
       (pf : PortfolioData)
       (debit credit : PortfolioData → Int → PortfolioData),
       env.swap_result req = Except.error () →
       exec_leg env req expected_out pf debit credit =
         credit (debit pf req.amount_in) expected_out) ∧
    (∀ (env : OracleEnv) (f : SwapCall → Except Unit (List Int))
       (s : ContractState) (now user : Nat),
       (rebalance { reflector_lastprice := env.reflector_lastprice
                    mock_lastprice := env.mock_lastprice
                    swap_result := f } s now user).isOk =
         (rebalance env s now user).isOk) := by
  constructor
  · intro env req expected_out pf debit credit hfail
    unfold exec_leg
    rw [hfail]
  · intro env f s now user
    have hgp : ∀ (s2 : ContractState) (pair : TPair),
        get_price { reflector_lastprice := env.reflector_lastprice
                    mock_lastprice := env.mock_lastprice
                    swap_result := f } s2 now pair = get_price env s2 now pair :=
      fun _ _ => rfl
    have hga : ∀ (s2 : ContractState) (pair : TPair),
        get_7day_average_price
            { reflector_lastprice := env.reflector_lastprice
              mock_lastprice := env.mock_lastprice
              swap_result := f } s2 now pair =
          get_7day_average_price env s2 now pair :=
      fun _ _ => rfl
    unfold rebalance
    cases hm : s.portfolios user with
    | none => rfl
    | some pf0 =>
      dsimp only
      repeat first
      | rw [hgp]
      | rw [hga]
      generalize g1 : get_price env s now TPair.KALE_USD = r1
      generalize g2 : get_7day_average_price env r1.2 now TPair.KALE_USD = r2
      generalize g3 : get_price env r2.2 now TPair.BTC_USD = r3
      generalize g4 : get_price env r3.2 now TPair.BTC_USD = r4
      generalize g5 : get_price env r4.2 now TPair.BTC_USD = r5
      cases ht : riskTargets pf0.risk_level with
      | none => rfl
      | some targets =>
        dsimp only
        generalize gckv : pf0.kale_balance * r1.1 = ckv
        generalize gtv : ckv + pf0.usdc_balance * 1000000000 + pf0.btc_balance * r3.1 = tv
        generalize gtkv : (tv * targets.2.2).tdiv 100 = tkv
        generalize gdrift : ((r1.1 - r2.1) * 100).tdiv r2.1 = drift
        generalize gex : (ckv - tkv).tdiv r1.1 = ex
        generalize gk2u : ex.tdiv 2 = k2u
        generalize gk2b : ex - k2u = k2b
        generalize gn : tkv - ckv = nkv
        generalize gu2s : pf0.usdc_balance ⊓ (nkv.tdiv 2).tdiv 1000000000 = u2s
        generalize gb2s : pf0.btc_balance ⊓ (nkv.tdiv 2).tdiv r4.1 = b2s
        by_cases c0 : r2.1 = 0
        · rw [if_pos c0, if_pos c0]
        · rw [if_neg c0, if_neg c0]
          by_cases c1 : 10 < drift
          · rw [if_pos c1, if_pos c1]
            by_cases c2 : tkv < ckv
            · rw [if_pos c2, if_pos c2]
              by_cases c3 : r1.1 = 0
              · rw [if_pos c3, if_pos c3]
              · rw [if_neg c3, if_neg c3]
                by_cases c4 : s.config.router_set = true ∧ s.config.kale_set = true ∧
                    s.config.usdc_set = true ∧ s.config.btc_set = true
                · rw [if_pos c4, if_pos c4]
                  by_cases c5 : 0 < k2b
                  · rw [if_pos c5, if_pos c5]
                    by_cases c6 : r4.1 = 0
                    · rw [if_pos c6, if_pos c6]
                    · rw [if_neg c6, if_neg c6]
                      rfl
                  · rw [if_neg c5, if_neg c5]
                    rfl
                · rw [if_neg c4, if_neg c4]
            · rw [if_neg c2, if_neg c2]
          · rw [if_neg c1, if_neg c1]
            by_cases c7 : drift < -10
            · rw [if_pos c7, if_pos c7]
              by_cases c8 : ckv < tkv
              · rw [if_pos c8, if_pos c8]
                by_cases c9 : r4.1 = 0
                · rw [if_pos c9, if_pos c9]
                · rw [if_neg c9, if_neg c9]
                  by_cases c4 : s.config.router_set = true ∧ s.config.kale_set = true ∧
                      s.config.usdc_set = true ∧ s.config.btc_set = true
                  · rw [if_pos c4, if_pos c4]
                    by_cases c11 : 0 < u2s
                    · rw [if_pos c11, if_pos c11]
                      by_cases c12 : r1.1 = 0
                      · rw [if_pos c12, if_pos c12]
                      · rw [if_neg c12, if_neg c12, if_neg c12, if_neg c12]
                        by_cases c13 : 0 < b2s
                        · rw [if_pos c13, if_pos c13]
                          rfl
                        · rw [if_neg c13, if_neg c13]
                          rfl
                    · rw [if_neg c11, if_neg c11]
                      by_cases c13 : 0 < b2s
                      · rw [if_pos c13, if_pos c13]
                        by_cases c12 : r1.1 = 0
                        · rw [if_pos c12, if_pos c12]
                        · rw [if_neg c12, if_neg c12]
                          rfl
                      · rw [if_neg c13, if_neg c13]
                  · rw [if_neg c4, if_neg c4]
              · rw [if_neg c8, if_neg c8]
            · rw [if_neg c7, if_neg c7]

/-- Portfolio fixture: 100 KALE, conservative risk level. -/
def pfW : PortfolioData :=
  { kale_balance := 100, usdc_balance := 0, btc_balance := 0, risk_level := 1 }

/-- State with a portfolio for user 0, a fresh KALE cache entry of 100 at
time 5, and one history point of 100 at time 5. -/
def stateC1 : ContractState :=
  { baseState with
    cache := fun q =>
      if q = TPair.KALE_USD then
        some { price := 100, timestamp := 5, source := PriceSource.cache }
      else none
    history := fun q =>
      if q = TPair.KALE_USD then [{ timestamp := 5, price := 100 }] else []
    portfolios := fun u => if u = 0 then some pfW else none }

/-- Witness for C1 at a concrete state with zero drift. -/
theorem rebalance_noop_when_drift_small_witness :
    stateC1.portfolios 0 = some pfW ∧
    rebal_avg_price envNone stateC1 5 ≠ 0 ∧
    -10 ≤ rebal_drift envNone stateC1 5 ∧
    rebal_drift envNone stateC1 5 ≤ 10 ∧
    ∃ s2, rebalance envNone stateC1 5 0 = Except.ok s2 ∧
      s2.portfolios 0 = stateC1.portfolios 0 :=
  ⟨rfl, by decide, by decide, by decide,
    rebalance_noop_when_drift_small envNone stateC1 5 0 pfW rfl (by decide)
      (by decide) (by decide)⟩

/-- Swap request fixture. -/
def reqW : SwapCall :=
  { amount_in := 5, amount_out_min := 1, path := [Token.kale, Token.usdc],
    deadline := 300 }

/-- Witness for C2: a failing swap debits the input 5 and credits the
estimate 7, and replacing the router's answers does not change whether a
concrete `rebalance` call succeeds. -/
theorem rebalance_swap_failure_bookkeeping_witness :
    envNone.swap_result reqW = Except.error () ∧
    exec_leg envNone reqW 7 pfW
        (fun p a => { p with kale_balance := p.kale_balance - a })
        (fun p a => { p with usdc_balance := p.usdc_balance + a }) =
      { kale_balance := 95, usdc_balance := 7, btc_balance := 0, risk_level := 1 } ∧
    (rebalance { reflector_lastprice := envNone.reflector_lastprice
                 mock_lastprice := envNone.mock_lastprice
                 swap_result := fun _ => Except.ok [1, 2] } stateC1 5 0).isOk =
      (rebalance envNone stateC1 5 0).isOk :=
  ⟨rfl,
    Eq.trans
      (rebalance_swap_failure_bookkeeping.1 envNone reqW 7 pfW
        (fun p a => { p with kale_balance := p.kale_balance - a })
        (fun p a => { p with usdc_balance := p.usdc_balance + a }) rfl)
      (by decide),
    rebalance_swap_failure_bookkeeping.2 envNone (fun _ => Except.ok [1, 2])
      stateC1 5 0⟩

/-- State with an open breaker recorded after 3 failures at time 0. -/
def stateC3 : ContractState :=
  { baseState with
    health := some { consecutive_failures := 3
                     last_success_timestamp := 0
                     is_circuit_open := true } }

/-- Witness for C3 at a concrete open-breaker state. -/
theorem get_price_health_invariant_witness :
    health_inv stateC3.health ∧
    (health_inv ((get_price envNone stateC3 2000 TPair.KALE_USD).2).health ∧
      (health_open stateC3.health = true →
       health_open ((get_price envNone stateC3 2000 TPair.KALE_USD).2).health
           = false →
       (try_fetch_oracle_price envNone stateC3.config 2000
           TPair.KALE_USD).isSome = true ∨
         1800 < 2000 - (get_oracle_health stateC3 2000).last_success_timestamp)) :=
  have hinv : health_inv stateC3.health := by
    intro h hh _
    injection hh with h2
    rw [← h2]
  ⟨hinv, get_price_health_invariant envNone stateC3 2000 TPair.KALE_USD hinv⟩

/-- Witness for C4 at the open-breaker state `stateC3` (no cache, last
success at time 0), exercising both amended scenarios: at time 1000 the
cooldown has not elapsed, so the call's outcome is identical under an
oracle environment that would have answered (`envC7`) and equals the
cache-or-fallback value; at time 2000 the cooldown has elapsed and the
fresh cache misses, so the call behaves as if the breaker had first been
forced closed with its failure counter reset. -/
theorem get_price_circuit_open_behavior_witness :
    stateC3.health = some { consecutive_failures := 3
                            last_success_timestamp := 0
                            is_circuit_open := true } ∧
    ((1000 : Nat) - 0 ≤ 1800 ∧
      get_price envNone stateC3 1000 TPair.KALE_USD =
        get_price envC7 stateC3 1000 TPair.KALE_USD ∧
      (get_price envNone stateC3 1000 TPair.KALE_USD).1 =
        cache_or_fallback stateC3 1000 TPair.KALE_USD) ∧
    (1800 < (2000 : Nat) - 0 ∧
      get_cached_price stateC3 TPair.KALE_USD 2000 300 = none ∧
      get_price envNone stateC3 2000 TPair.KALE_USD =
        get_price envNone
          { stateC3 with
            health := some { consecutive_failures := 0
                             last_success_timestamp := 0
                             is_circuit_open := false } }
          2000 TPair.KALE_USD) :=
  ⟨rfl,
    ⟨by decide,
      (get_price_circuit_open_behavior envNone envC7 stateC3 1000
        TPair.KALE_USD _ rfl rfl).1 (by decide)⟩,
    ⟨by decide, rfl,
      (get_price_circuit_open_behavior envNone envNone stateC3 2000
        TPair.KALE_USD _ rfl rfl).2 (by decide) rfl⟩⟩

/-- Witness for C5: an unknown pair with no cache resolves to the neutral
constant. -/
theorem get_price_total_neutral_fallback_witness :
    baseState.cache (TPair.other 0) = none ∧
    (get_price envNone baseState 0 (TPair.other 0)).1 = 1000000000 :=
  ⟨rfl, get_price_total_neutral_fallback envNone baseState 0 0 rfl⟩

/-- State with a portfolio, a fresh KALE cache entry of 7, and a single
zero-price history point, so the 7-day average is 0. -/
def stateC6 : ContractState :=
  { baseState with
    cache := fun q =>
      if q = TPair.KALE_USD then
        some { price := 7, timestamp := 5, source := PriceSource.cache }
      else none
    history := fun q =>
      if q = TPair.KALE_USD then [{ timestamp := 5, price := 0 }] else []
    portfolios := fun u => if u = 0 then some pfW else none }

/-- Witness for C6: with a zero 7-day average the call aborts with the
division-by-zero panic. -/
theorem rebalance_zero_average_division_witness :
    stateC6.portfolios 0 = some pfW ∧
    rebal_avg_price envNone stateC6 5 = 0 ∧
    rebalance envNone stateC6 5 0 = Except.error RebalErr.divisionByZero :=
  ⟨rfl, by decide,
    rebalance_zero_average_division envNone stateC6 5 0 pfW rfl (by decide)⟩

/-- Witness for C7: a fresh hit returns the cached 42 and leaves the state
unchanged; after a miss at time 10, a second call at time 20 repeats the
first call's result as a pure hit. -/
theorem get_price_cache_hit_pure_witness :
    (cexStateC7.cache TPair.KALE_USD =
        some { price := 42, timestamp := 0, source := PriceSource.cache } ∧
      (100 : Nat) - 0 ≤ 300 ∧
      get_price envNone cexStateC7 100 TPair.KALE_USD = (42, cexStateC7)) ∧
    (get_cached_price baseState TPair.KALE_USD 10 300 = none ∧
      (20 : Nat) - 10 ≤ 300 ∧
      get_price envNone (get_price envNone baseState 10 TPair.KALE_USD).2 20
          TPair.KALE_USD =
        ((get_price envNone baseState 10 TPair.KALE_USD).1,
         (get_price envNone baseState 10 TPair.KALE_USD).2)) :=
  ⟨⟨rfl, by decide,
    (get_price_cache_hit_pure envNone envNone cexStateC7 100 0
        TPair.KALE_USD).1
      { price := 42, timestamp := 0, source := PriceSource.cache } rfl
      (by decide)⟩,
   ⟨rfl, by decide,
    (get_price_cache_hit_pure envNone envNone baseState 10 20
        TPair.KALE_USD).2 rfl (by decide)⟩⟩

/-- State whose KALE history holds two sorted points at times 0 and 10. -/
def stateC8 : ContractState :=
  { baseState with
    history := fun q =>
      if q = TPair.KALE_USD then
        [{ timestamp := 0, price := 5 }, { timestamp := 10, price := 6 }]
      else [] }

/-- Witness for C8 at time 700000: both old points fall out of the window
and the new point is retained at the back. -/
theorem store_price_history_window_witness :
    List.Pairwise (fun a b => a.timestamp ≤ b.timestamp)
      (stateC8.history TPair.KALE_USD) ∧
    (List.IsSuffix
        ((store_price_history stateC8 TPair.KALE_USD 9 700000).history
          TPair.KALE_USD)
        (stateC8.history TPair.KALE_USD ++ [{ timestamp := 700000, price := 9 }]) ∧
      ((store_price_history stateC8 TPair.KALE_USD 9 700000).history
          TPair.KALE_USD).getLast? = some { timestamp := 700000, price := 9 } ∧
      ∀ p ∈ (store_price_history stateC8 TPair.KALE_USD 9 700000).history
          TPair.KALE_USD, 700000 - 604800 ≤ p.timestamp) :=
  ⟨by decide, store_price_history_window stateC8 TPair.KALE_USD 9 700000
    (by decide)⟩

/-- Witness for C9: the average over the one-point history of `stateC1` is
the truncated mean, and with no history the resolver is consulted. -/
theorem get_7day_average_spec_witness :
    (stateC1.history TPair.KALE_USD ≠ [] ∧
      get_7day_average_price envNone stateC1 5 TPair.KALE_USD =
        (((stateC1.history TPair.KALE_USD).map PricePoint.price).sum.tdiv
          ((stateC1.history TPair.KALE_USD).length : Int), stateC1)) ∧
    (baseState.history TPair.KALE_USD = [] ∧
      get_7day_average_price envNone baseState 5 TPair.KALE_USD =
        get_price envNone baseState 5 TPair.KALE_USD) :=
  ⟨⟨by decide,
    (get_7day_average_spec envNone stateC1 5 TPair.KALE_USD).1 (by decide)⟩,
   ⟨rfl, (get_7day_average_spec envNone baseState 5 TPair.KALE_USD).2 rfl⟩⟩

/-- Witness for C10: resolving KALE_USDC — a pair the fallback table
recognises but the oracle cannot serve — on the empty closed-breaker
state books one failure. -/
theorem get_price_unsupported_pair_failure_count_witness :
    TPair.KALE_USDC ≠ TPair.KALE_USD ∧
    get_cached_price baseState TPair.KALE_USDC 50 300 = none ∧
    health_open baseState.health = false ∧
    ((get_price envNone baseState 50 TPair.KALE_USDC).2).health =
      some { consecutive_failures :=
               (get_oracle_health baseState 50).consecutive_failures + 1
             last_success_timestamp :=
               (get_oracle_health baseState 50).last_success_timestamp
             is_circuit_open :=
               decide (3 ≤ (get_oracle_health baseState 50).consecutive_failures
                 + 1) } :=
  ⟨by decide, rfl, rfl,
    get_price_unsupported_pair_failure_count envNone baseState 50
      TPair.KALE_USDC (by decide) (by decide) (by decide) rfl rfl⟩
